import Mathlib

/-!
Verification development for the VideoWorkerService repository: a shallow
embedding of the accumulation-and-exclusive-generation pipeline
(`src/services/media_creator.py`, `src/main.py`,
`src/services/redis_service.py`, `src/services/media/image_validator.py`)
together with theorems about its claims.

External collaborators (the `base64` decoder, the PIL image parser, the
MoviePy render call, the R2 upload call) are modelled as oracles: functions
or outcome parameters supplied by the environment.  All control flow around
them is translated from the source.

Python string primitives (`sort`, `lower`, `endswith`, `split`) are
embedded as executable functions on the character list of a `String`,
matching Python's code-point semantics.
-/

/-- Lexicographic code-point comparison of character lists: the order Python
uses for `list.sort()` on the file-name strings. -/
def charListLe : List Char → List Char → Bool
  | [], _ => true
  | _ :: _, [] => false
  | a :: as, b :: bs =>
    if a.toNat < b.toNat then true
    else if b.toNat < a.toNat then false
    else charListLe as bs

/-- `a <= b` on Python strings (lexicographic by code point). -/
def nameLe (a b : String) : Prop := charListLe a.data b.data = true

instance : DecidableRel nameLe := fun a b => by
  unfold nameLe; infer_instance

/-- `l` ends with the characters of `suf` (Python `str.endswith`). -/
def suffixMatches (suf : String) (l : List Char) : Bool :=
  List.isSuffixOf suf.data l

/-- The characters of `s.lower()`. -/
def lowerData (s : String) : List Char := s.data.map Char.toLower

/-- Result of PIL parsing an image: its reported format string and pixel
dimensions (`img.format`, `img.size[0]`, `img.size[1]`). -/
structure ImgInfo where
  format : String
  width : Nat
  height : Nat
  deriving DecidableEq

/-- The external decoding collaborators used by the validators:
`base64.b64decode` (returns `none` when it raises) and
`PIL.Image.open` + `verify` (returns `none` when either raises). -/
structure PILEnv where
  b64decode : String → Option (List Nat)
  imOpen : List Nat → Option ImgInfo

/-- Configuration fields of `MediaService.__init__` that affect the store
logic.  Directory paths, resolution, duration and fps only parameterise the
external render call and do not influence the modelled state transitions. -/
structure MediaService where
  min_images : Nat
  deriving DecidableEq

/-- The backing medium: the files currently in `image_dir` (in creation
order, i.e. the order `save_image` wrote them) and the files currently in
`video_dir`. -/
structure MediaState where
  images : List String
  videos : List String
  deriving DecidableEq

/-- `MAX_IMAGE_SIZE = 10 * 1024 * 1024` from `MediaService._validate_image`
(the same constant appears as `ImageValidator.MAX_IMAGE_SIZE`). -/
def MAX_IMAGE_SIZE : Nat := 10 * 1024 * 1024

/-- `ImageValidator.MAX_DIMENSION` (the pipeline validator hardcodes the
same bound 5000). -/
def ImageValidator.MAX_DIMENSION : Nat := 5000

/-- Everything after the first comma of `s`, if `s` contains one. -/
def dropThroughComma : List Char → Option (List Char)
  | [] => none
  | c :: cs => if c = ',' then some cs else dropThroughComma cs

/-- `if "," in s: s = s.split(",", 1)[1]` — remove an optional
comma-delimited base64 header. -/
def stripCommaHeader (s : String) : String :=
  match dropThroughComma s.data with
  | none => s
  | some rest => ⟨rest⟩

/-- `MediaService._validate_image`: decode base64 (`none` on error), reject
payloads over `MAX_IMAGE_SIZE`, parse with PIL (`none` on error), reject
dimensions over 5000, otherwise return the decoded bytes.  Note: unlike
`ImageValidator.validate` this routine has no format whitelist. -/
def MediaService.validate_image (env : PILEnv) (image_base64 : String) :
    Option (List Nat) :=
  match env.b64decode image_base64 with
  | none => none
  | some image_bytes =>
    if MAX_IMAGE_SIZE < image_bytes.length then none
    else
      match env.imOpen image_bytes with
      | none => none
      | some img =>
        if 5000 < img.width || 5000 < img.height then none
        else some image_bytes

/-- `ImageValidator.validate` from `src/services/media/image_validator.py`:
strips a comma-delimited header itself, then decode, size check, PIL parse,
dimension check, and finally the format whitelist
`img.format not in ['JPEG', 'PNG', 'JPG']`. -/
def ImageValidator.validate (env : PILEnv) (image_base64 : String) :
    Option (List Nat) :=
  let t := stripCommaHeader image_base64
  match env.b64decode t with
  | none => none
  | some image_bytes =>
    if MAX_IMAGE_SIZE < image_bytes.length then none
    else
      match env.imOpen image_bytes with
      | none => none
      | some img =>
        if ImageValidator.MAX_DIMENSION < img.width
            || ImageValidator.MAX_DIMENSION < img.height then none
        else if (["JPEG", "PNG", "JPG"].contains img.format) = false then none
        else some image_bytes

/-- The extension filter of `MediaService.get_images`:
`f.lower().endswith((".jpg", ".jpeg", ".png"))`. -/
def isImageFile (f : String) : Bool :=
  suffixMatches ".jpg" (lowerData f) || suffixMatches ".jpeg" (lowerData f)
    || suffixMatches ".png" (lowerData f)

/-- `MediaService.get_images`: list `image_dir`, keep image extensions, and
`files.sort()` — lexicographic order on the file names. -/
def MediaService.get_images (s : MediaState) : List String :=
  (s.images.filter fun f => isImageFile f).insertionSort nameLe

/-- `MediaService.save_image`: strip an optional comma-delimited header,
validate; on failure return `False` without touching the store, on success
write a new file `f"{int(time.time())}_{uuid.uuid4().hex}.jpg"` (the name is
produced by the environment and passed in as `filename`). -/
def MediaService.save_image (env : PILEnv) (s : MediaState)
    (image_base64 : String) (filename : String) : MediaState × Bool :=
  let stripped := stripCommaHeader image_base64
  match MediaService.validate_image env stripped with
  | none => (s, false)
  | some _ => ({ s with images := s.images ++ [filename] }, true)

/-- `MediaService.should_generate_video`: `count >= self.min_images`. -/
def MediaService.should_generate_video (svc : MediaService) (s : MediaState) :
    Bool :=
  svc.min_images ≤ (MediaService.get_images s).length

/-- An opaque raised Python `Exception` (the logged message is irrelevant to
the modelled state). -/
inductive PyExc
  | exc
  deriving DecidableEq

/-- Outcome of the external render section of `_generate_video_sync` (the
`ImageClip` loop, `concatenate_videoclips` and `write_videofile`): it either
completes the output file or raises.  On a raise the artifact is not
produced and control reaches the `finally` block (which only closes clips)
before the exception propagates. -/
inductive BuildOutcome
  | success
  | raises
  deriving DecidableEq

/-- Outcome of `R2UploaderService.upload_video` as observed by
`generate_and_upload_video`: a URL, a falsy URL (`if not video_url`), or a
raised exception. -/
inductive UploadOutcome
  | ok (url : String)
  | noUrl
  | raises
  deriving DecidableEq

/-- `MediaService._cleanup_images`: `os.remove` every file of the consumed
batch (per-file errors are logged and skipped; removal is modelled as
effective). -/
def MediaService.cleanup_images (s : MediaState) (batch : List String) :
    MediaState :=
  { s with images := s.images.filter fun f => (batch.contains f) = false }

/-- `MediaService._cleanup_videos` on a single path: remove the file if it
exists (errors logged and skipped; removal modelled as effective). -/
def MediaService.cleanup_videos (s : MediaState) (video : String) :
    MediaState :=
  { s with videos := s.videos.filter fun v => (v == video) = false }

/-- `MediaService._generate_video_sync`, the section that runs under
`video_generation_lock`: snapshot `get_images()`, abort with `None` if the
batch is below `min_images`, then render the batch into a new file
`f"slideshow_{int(time.time())}_{uuid.uuid4().hex}.mp4"` (name supplied by
the environment as `videoName`).  On render success the consumed batch is
deleted (`_cleanup_images`) and the output path returned; on a render raise
the exception propagates and the batch is NOT deleted — `_cleanup_images`
is only reached after `write_videofile` succeeds. -/
def MediaService.generate_video_sync (svc : MediaService) (s : MediaState)
    (build : BuildOutcome) (videoName : String) :
    MediaState × Except PyExc (Option String) :=
  let images := MediaService.get_images s
  if images.length < svc.min_images then (s, .ok none)
  else
    match build with
    | .raises => (s, .error .exc)
    | .success =>
      let s1 := { s with videos := s.videos ++ [videoName] }
      (MediaService.cleanup_images s1 images, .ok (some videoName))

/-- `MediaService.generate_and_upload_video`: run the synchronous generation
on the worker pool; if it produced no path, return `None`; otherwise upload
on the worker pool inside `try ... finally self._cleanup_videos(video_path)`
— the local artifact is removed whether the upload returned a URL, returned
nothing, or raised.  An exception out of the generation step itself
propagates (there is no `try` around it). -/
def MediaService.generate_and_upload_video (svc : MediaService)
    (s : MediaState) (build : BuildOutcome) (videoName : String)
    (upload : UploadOutcome) : MediaState × Except PyExc (Option String) :=
  match MediaService.generate_video_sync svc s build videoName with
  | (s1, .error e) => (s1, .error e)
  | (s1, .ok none) => (s1, .ok none)
  | (s1, .ok (some video_path)) =>
    match upload with
    | .raises => (MediaService.cleanup_videos s1 video_path, .error .exc)
    | .noUrl => (MediaService.cleanup_videos s1 video_path, .ok none)
    | .ok url => (MediaService.cleanup_videos s1 video_path, .ok (some url))

/-- `payload.get("extracted_data")`: only the consumed key.  An absent
`is_job_vacancy` key is falsy, so it is modelled as `false`. -/
structure ExtractedData where
  is_job_vacancy : Bool
  deriving DecidableEq

/-- An inbound payload, consumed keys only: `type`, `timestamp` (opaque,
echoed), `extracted_data`, `image`.  `none` models an absent key. -/
structure Payload where
  type : Option String
  timestamp : Option String
  extracted_data : Option ExtractedData
  image : Option String
  deriving DecidableEq

/-- The `video` object of an outbound `video_ready` payload. -/
structure VideoInfo where
  path : String
  format : String
  deriving DecidableEq

/-- The outbound `video_ready` payload built by `_handle_payload`. -/
structure OutboundEvent where
  type : String
  source : String
  timestamp : Option String
  video : VideoInfo
  deriving DecidableEq

/-- The environment choices made while one payload is handled: the name
`save_image` gives the new file, the render outcome and output name, and the
upload outcome. -/
structure EventEnv where
  filename : String
  build : BuildOutcome
  videoName : String
  upload : UploadOutcome

/-- The body of the `try` block of `VideoMaker._handle_payload`: the
filter chain (wrong `type`, absent or falsy `extracted_data.is_job_vacancy`,
absent or empty `image` — each a silent drop), then `save_image` (its
boolean result is only logged), the `should_generate_video` threshold
check, `generate_and_upload_video`, and on a URL the construction and
publication of the `video_ready` payload.  `RedisPublisher.publish` catches
all its exceptions internally and returns a boolean the handler ignores, so
publication itself never raises; an exception from the generation step
escapes this body. -/
def VideoMaker.handle_payload_body (svc : MediaService) (pil : PILEnv)
    (s : MediaState) (p : Payload) (env : EventEnv) :
    MediaState × Except PyExc (List OutboundEvent) :=
  if (p.type == some "job_vacancy") = false then (s, .ok [])
  else
    match p.extracted_data with
    | none => (s, .ok [])
    | some extracted =>
      if extracted.is_job_vacancy = false then (s, .ok [])
      else
        match p.image with
        | none => (s, .ok [])
        | some image_base64 =>
          if image_base64 = "" then (s, .ok [])
          else
            let saved := MediaService.save_image pil s image_base64
              env.filename
            let s1 := saved.1
            if MediaService.should_generate_video svc s1 = false then
              (s1, .ok [])
            else
              match MediaService.generate_and_upload_video svc s1 env.build
                  env.videoName env.upload with
              | (s2, .error e) => (s2, .error e)
              | (s2, .ok none) => (s2, .ok [])
              | (s2, .ok (some video_url)) =>
                (s2, .ok [{ type := "video_ready", source := "video_worker",
                            timestamp := p.timestamp,
                            video := { path := video_url,
                                       format := "mp4" } }])

/-- `VideoMaker._handle_payload`: the `try` body wrapped in
`except Exception` — a raised exception is logged and the handler returns
normally having published nothing. -/
def VideoMaker.handle_payload (svc : MediaService) (pil : PILEnv)
    (s : MediaState) (p : Payload) (env : EventEnv) :
    MediaState × List OutboundEvent :=
  match VideoMaker.handle_payload_body svc pil s p env with
  | (s1, .error _) => (s1, [])
  | (s1, .ok evs) => (s1, evs)

/-- The consume loop (`RedisSubscriber._loop` + `_handle_message`) over a
finite message trace.  A message whose JSON parse failed is `none`
(`json.JSONDecodeError`: logged, loop continues); each parsed payload is
handed to the handler strictly in order; the collected outbound events are
returned alongside the final store state. -/
def RedisSubscriber.consume_loop (svc : MediaService) (pil : PILEnv)
    (s : MediaState) :
    List (Option Payload × EventEnv) → MediaState × List OutboundEvent
  | [] => (s, [])
  | (none, _) :: rest => RedisSubscriber.consume_loop svc pil s rest
  | (some p, env) :: rest =>
    let r := VideoMaker.handle_payload svc pil s p env
    let r2 := RedisSubscriber.consume_loop svc pil r.1 rest
    (r2.1, r.2 ++ r2.2)

/-- The flags `VideoMaker.stop` manipulates: the `stopped` latch, the
shutdown `asyncio.Event`, whether `subscriber.stop()`, the executor
shutdown (`media.cleanup()`) and `redis.close_redis()` have run. -/
structure VideoMakerState where
  stopped : Bool
  shutdown_event : Bool
  subscriber_stopped : Bool
  executor_shutdown : Bool
  redis_closed : Bool
  deriving DecidableEq

/-- `VideoMaker.stop`: under `shutdown_lock`, return immediately if the
`stopped` latch is set; otherwise set it and perform the teardown steps in
order (set the shutdown event, stop the subscriber, shut the executor down,
close redis). -/
def VideoMaker.stop (st : VideoMakerState) : VideoMakerState :=
  if st.stopped then st
  else
    { stopped := true, shutdown_event := true, subscriber_stopped := true,
      executor_shutdown := true, redis_closed := true }

/-- Where a worker thread running `_generate_video_sync` stands relative to
`with self.video_generation_lock`: before the `with` statement, inside the
guarded snapshot-build-cleanup section, or past it. -/
inductive GenPhase
  | beforeLock
  | inBuild
  | released
  deriving DecidableEq

/-- A configuration of `n` worker threads and the `threading.Lock`:
each thread's phase and the current lock holder (`none` = unlocked). -/
structure LockState (n : Nat) where
  pcs : Fin n → GenPhase
  holder : Option (Fin n)

/-- Point update of a phase assignment. -/
def setPhase {n : Nat} (pcs : Fin n → GenPhase) (t : Fin n) (p : GenPhase) :
    Fin n → GenPhase :=
  fun u => if u = t then p else pcs u

/-- Interleaving semantics of `threading.Lock` around the guarded section:
a thread may enter the section only by acquiring the free lock, may take
internal steps while holding it, and releases it on exit.  The snapshot,
render, cleanup and return of `_generate_video_sync` are all internal steps
of the `inBuild` phase. -/
inductive LockStep {n : Nat} : LockState n → LockState n → Prop
  | acquire (st : LockState n) (t : Fin n)
      (hpc : st.pcs t = .beforeLock) (hfree : st.holder = none) :
      LockStep st ⟨setPhase st.pcs t .inBuild, some t⟩
  | internal (st : LockState n) (t : Fin n)
      (hpc : st.pcs t = .inBuild) (hheld : st.holder = some t) :
      LockStep st st
  | release (st : LockState n) (t : Fin n)
      (hpc : st.pcs t = .inBuild) (hheld : st.holder = some t) :
      LockStep st ⟨setPhase st.pcs t .released, none⟩

/-- The initial configuration: no thread has reached the `with` statement
and the lock is free. -/
def LockState.init (n : Nat) : LockState n :=
  ⟨fun _ => .beforeLock, none⟩

/-- A configuration reachable from the initial one by any interleaving. -/
def LockState.Reachable {n : Nat} (st : LockState n) : Prop :=
  Relation.ReflTransGen LockStep (LockState.init n) st

instance : IsTotal String nameLe := by
  constructor
  have h : ∀ x y : List Char,
      charListLe x y = true ∨ charListLe y x = true := by
    intro x
    induction x with
    | nil => intro y; exact Or.inl rfl
    | cons a as ih =>
      intro y
      cases y with
      | nil => exact Or.inr rfl
      | cons b bs =>
        by_cases hab : a.toNat < b.toNat
        · left; simp [charListLe, hab]
        · by_cases hba : b.toNat < a.toNat
          · right; simp [charListLe, hba]
          · rcases ih bs with hc | hc
            · left; simp [charListLe, hab, hba, hc]
            · right; simp [charListLe, hab, hba, hc]
  intro a b
  exact h a.data b.data

instance : IsTrans String nameLe := by
  constructor
  have h : ∀ x y z : List Char, charListLe x y = true →
      charListLe y z = true → charListLe x z = true := by
    intro x
    induction x with
    | nil => intro y z _ _; rfl
    | cons a as ih =>
      intro y z hxy hyz
      cases y with
      | nil => simp [charListLe] at hxy
      | cons b bs =>
        cases z with
        | nil => simp [charListLe] at hyz
        | cons c cs =>
          simp only [charListLe] at hxy hyz ⊢
          by_cases hab : a.toNat < b.toNat
          · by_cases hbc : b.toNat < c.toNat
            · have hac : a.toNat < c.toNat := hab.trans hbc
              simp [hac]
            · by_cases hcb : c.toNat < b.toNat
              · simp [hbc, hcb] at hyz
              · have hBC : b.toNat = c.toNat :=
                  le_antisymm (not_lt.1 hcb) (not_lt.1 hbc)
                have hac : a.toNat < c.toNat := hBC ▸ hab
                simp [hac]
          · by_cases hba : b.toNat < a.toNat
            · simp [hab, hba] at hxy
            · have hAB : a.toNat = b.toNat :=
                le_antisymm (not_lt.1 hba) (not_lt.1 hab)
              simp only [if_neg hab, if_neg hba] at hxy
              by_cases hbc : b.toNat < c.toNat
              · have hac : a.toNat < c.toNat := hAB ▸ hbc
                simp [hac]
              · by_cases hcb : c.toNat < b.toNat
                · simp [hbc, hcb] at hyz
                · simp only [if_neg hbc, if_neg hcb] at hyz
                  have hac : ¬ a.toNat < c.toNat := by omega
                  have hca : ¬ c.toNat < a.toNat := by omega
                  simp only [if_neg hac, if_neg hca]
                  exact ih bs cs hxy hyz
  intro a b c
  exact h a.data b.data c.data

/-- The configuration of two worker threads after thread 0 acquires the
generation lock from the initial configuration. -/
def lockDemoState : LockState 2 :=
  ⟨setPhase (LockState.init 2).pcs 0 GenPhase.inBuild, some 0⟩

/-! ## Helper lemmas -/

/-- Lock-holding invariant of every reachable configuration: a thread inside
the guarded section of `_generate_video_sync` is the current lock holder. -/
theorem LockState.reachable_holder_inv {n : Nat} {st : LockState n}
    (h : st.Reachable) :
    ∀ t : Fin n, st.pcs t = .inBuild → st.holder = some t := by
  induction h with
  | refl =>
    intro t ht
    exact absurd ht (by simp [LockState.init])
  | tail _ hstep ih =>
    cases hstep with
    | acquire t0 hpc hfree =>
      intro t ht
      by_cases hte : t = t0
      · subst hte; rfl
      · have ht2 : _ = GenPhase.inBuild := ht
        simp only [setPhase, if_neg hte] at ht2
        exact absurd (ih t ht2) (by simp [hfree])
    | internal t0 hpc hheld =>
      exact ih
    | release t0 hpc hheld =>
      intro t ht
      have ht2 : _ = GenPhase.inBuild := ht
      by_cases hte : t = t0
      · subst hte
        simp only [setPhase, if_pos rfl] at ht2
        exact absurd ht2 (by simp)
      · simp only [setPhase, if_neg hte] at ht2
        have := (ih t ht2).symm.trans hheld
        exact absurd (Option.some.inj this) hte

/-! ## Claims -/

/-- C1: at most one GenerationJob executes at any instant.  Under any
interleaving of `threading.Lock` acquire/internal/release steps by any
number of worker threads, two threads are never simultaneously inside the
snapshot-build-cleanup section guarded by `video_generation_lock`. -/
theorem C1_at_most_one_build {n : Nat} (st : LockState n)
    (h : st.Reachable) (t1 t2 : Fin n)
    (h1 : st.pcs t1 = .inBuild) (h2 : st.pcs t2 = .inBuild) : t1 = t2 := by
  have i1 := LockState.reachable_holder_inv h t1 h1
  have i2 := LockState.reachable_holder_inv h t2 h2
  exact Option.some.inj (i1.symm.trans i2)

/-- Witness for C1: with two worker threads, the configuration after thread
0 acquires the lock is reachable, thread 0 is inside the section, and the
theorem instantiates there. -/
theorem C1_at_most_one_build_witness :
    lockDemoState.pcs 0 = GenPhase.inBuild ∧ (0 : Fin 2) = 0 := by
  have hpc : lockDemoState.pcs 0 = GenPhase.inBuild := by
    simp [lockDemoState, setPhase]
  refine ⟨hpc, ?_⟩
  exact C1_at_most_one_build lockDemoState
    (Relation.ReflTransGen.single
      (LockStep.acquire (LockState.init 2) 0 rfl rfl))
    0 0 hpc hpc

/-- On a render raise, `_generate_video_sync` either aborts below threshold
(returning `None`) or propagates the exception; in both cases the store is
untouched. -/
theorem MediaService.generate_video_sync_raises (svc : MediaService)
    (s : MediaState) (v : String) :
    MediaService.generate_video_sync svc s .raises v = (s, .ok none)
    ∨ MediaService.generate_video_sync svc s .raises v = (s, .error .exc) := by
  unfold MediaService.generate_video_sync
  by_cases h : (MediaService.get_images s).length < svc.min_images
  · left; simp [h]
  · right; simp [h]

/-- On a render raise, `generate_and_upload_video` also either returns
`None` or propagates the exception, with the store untouched. -/
theorem MediaService.generate_and_upload_raises (svc : MediaService)
    (s : MediaState) (v : String) (u : UploadOutcome) :
    MediaService.generate_and_upload_video svc s .raises v u = (s, .ok none)
    ∨ MediaService.generate_and_upload_video svc s .raises v u
        = (s, .error .exc) := by
  unfold MediaService.generate_and_upload_video
  rcases MediaService.generate_video_sync_raises svc s v with h | h <;> rw [h]
  · left; rfl
  · right; rfl

/-- When the render raises, every branch of the `try` body of
`_handle_payload` ends in an empty event list or in a raised exception. -/
theorem VideoMaker.handle_payload_body_raises (svc : MediaService)
    (pil : PILEnv) (s : MediaState) (p : Payload) (env : EventEnv)
    (hb : env.build = .raises) :
    (VideoMaker.handle_payload_body svc pil s p env).2 = .ok []
    ∨ (VideoMaker.handle_payload_body svc pil s p env).2 = .error .exc := by
  unfold VideoMaker.handle_payload_body
  split
  · left; rfl
  · split
    · left; rfl
    · split
      · left; rfl
      · split
        · left; rfl
        · split
          · left; rfl
          · dsimp only
            split
            · left; rfl
            · rw [hb]
              rcases MediaService.generate_and_upload_raises svc
                  (MediaService.save_image pil s _ env.filename).1
                  env.videoName env.upload with h | h <;> rw [h]
              · left; rfl
              · right; rfl

/-- When the render raises, the handler publishes nothing: the `try` body
raised or produced no event and the handler boundary absorbs the raise. -/
theorem VideoMaker.handle_payload_raises_no_event (svc : MediaService)
    (pil : PILEnv) (s : MediaState) (p : Payload) (env : EventEnv)
    (hb : env.build = .raises) :
    (VideoMaker.handle_payload svc pil s p env).2 = [] := by
  have hbody := VideoMaker.handle_payload_body_raises svc pil s p env hb
  unfold VideoMaker.handle_payload
  rcases heq : VideoMaker.handle_payload_body svc pil s p env with ⟨s1, r⟩
  rw [heq] at hbody
  cases r with
  | error e => rfl
  | ok evs =>
    rcases hbody with h | h
    · simp only at h
      rw [Except.ok.inj h]
    · exact absurd h (by simp)

/-- C2 (amended): when the render step raises on a full batch, the consumed
asset batch is NOT deleted — `_cleanup_images` sits after `write_videofile`
in the `try` block and is never reached — the exception propagates out of
the coordinator (to be absorbed at the handler boundary), the store is
returned unchanged, and no outbound event is emitted. -/
theorem C2_build_failure_retains_assets (svc : MediaService) (s : MediaState)
    (v : String) (u : UploadOutcome)
    (h : svc.min_images ≤ (MediaService.get_images s).length) :
    MediaService.generate_and_upload_video svc s .raises v u
      = (s, .error .exc)
    ∧ ∀ (pil : PILEnv) (s2 : MediaState) (p : Payload) (env : EventEnv),
        env.build = .raises →
        (VideoMaker.handle_payload svc pil s2 p env).2 = [] := by
  constructor
  · have h1 : MediaService.generate_video_sync svc s .raises v
        = (s, .error .exc) := by
      unfold MediaService.generate_video_sync
      simp [Nat.not_lt.mpr h]
    unfold MediaService.generate_and_upload_video
    rw [h1]
  · intro pil s2 p env hb
    exact VideoMaker.handle_payload_raises_no_event svc pil s2 p env hb

/-- Counterexample to C2 as stated: a full batch of 10 with a failing render
leaves the Asset Store's count at 10, not 0 — the inputs are not deleted. -/
theorem C2_counterexample :
    (MediaService.generate_and_upload_video ⟨10⟩
        ⟨["b0.jpg", "b1.jpg", "b2.jpg", "b3.jpg", "b4.jpg", "b5.jpg",
          "b6.jpg", "b7.jpg", "b8.jpg", "b9.jpg"], []⟩
        .raises "v.mp4" (.ok "u")).1.images.length = 10
    ∧ (MediaService.generate_and_upload_video ⟨10⟩
        ⟨["b0.jpg", "b1.jpg", "b2.jpg", "b3.jpg", "b4.jpg", "b5.jpg",
          "b6.jpg", "b7.jpg", "b8.jpg", "b9.jpg"], []⟩
        .raises "v.mp4" (.ok "u")).1.images.length ≠ 0 := by decide

/-- Witness for C2 (amended) at a concrete full batch of 10. -/
theorem C2_build_failure_retains_assets_witness :
    10 ≤ (MediaService.get_images
        ⟨["c0.jpg", "c1.jpg", "c2.jpg", "c3.jpg", "c4.jpg", "c5.jpg",
          "c6.jpg", "c7.jpg", "c8.jpg", "c9.jpg"], []⟩).length
    ∧ MediaService.generate_and_upload_video ⟨10⟩
        ⟨["c0.jpg", "c1.jpg", "c2.jpg", "c3.jpg", "c4.jpg", "c5.jpg",
          "c6.jpg", "c7.jpg", "c8.jpg", "c9.jpg"], []⟩
        .raises "w.mp4" .noUrl
      = (⟨["c0.jpg", "c1.jpg", "c2.jpg", "c3.jpg", "c4.jpg", "c5.jpg",
           "c6.jpg", "c7.jpg", "c8.jpg", "c9.jpg"], []⟩, .error .exc) :=
  ⟨by decide,
   (C2_build_failure_retains_assets ⟨10⟩
      ⟨["c0.jpg", "c1.jpg", "c2.jpg", "c3.jpg", "c4.jpg", "c5.jpg",
        "c6.jpg", "c7.jpg", "c8.jpg", "c9.jpg"], []⟩
      "w.mp4" .noUrl (by decide)).1⟩

/-- C8: if at the re-check under the lock the snapshot batch size is below
`min_images`, `_generate_video_sync` aborts without building, returns
`None`, and the Asset Store is unchanged; the caller-side threshold check
`should_generate_video` is false as well. -/
theorem C8_below_threshold_aborts (svc : MediaService) (s : MediaState)
    (b : BuildOutcome) (v : String)
    (h : (MediaService.get_images s).length < svc.min_images) :
    MediaService.generate_video_sync svc s b v = (s, .ok none)
    ∧ MediaService.should_generate_video svc s = false := by
  constructor
  · unfold MediaService.generate_video_sync
    simp [h]
  · simp only [MediaService.should_generate_video, decide_eq_false_iff_not,
      not_le]
    exact h

/-- Witness for C8: 9 stored images with `min_images = 10` trigger no build
and the count stays 9. -/
theorem C8_below_threshold_aborts_witness :
    (MediaService.get_images
        ⟨["d1.jpg", "d2.jpg", "d3.jpg", "d4.jpg", "d5.jpg", "d6.jpg",
          "d7.jpg", "d8.jpg", "d9.jpg"], []⟩).length < 10
    ∧ MediaService.generate_video_sync ⟨10⟩
        ⟨["d1.jpg", "d2.jpg", "d3.jpg", "d4.jpg", "d5.jpg", "d6.jpg",
          "d7.jpg", "d8.jpg", "d9.jpg"], []⟩ .success "v.mp4"
      = (⟨["d1.jpg", "d2.jpg", "d3.jpg", "d4.jpg", "d5.jpg", "d6.jpg",
           "d7.jpg", "d8.jpg", "d9.jpg"], []⟩, .ok none)
    ∧ MediaService.should_generate_video ⟨10⟩
        ⟨["d1.jpg", "d2.jpg", "d3.jpg", "d4.jpg", "d5.jpg", "d6.jpg",
          "d7.jpg", "d8.jpg", "d9.jpg"], []⟩ = false :=
  ⟨by decide,
   (C8_below_threshold_aborts ⟨10⟩
      ⟨["d1.jpg", "d2.jpg", "d3.jpg", "d4.jpg", "d5.jpg", "d6.jpg",
        "d7.jpg", "d8.jpg", "d9.jpg"], []⟩ .success "v.mp4" (by decide)).1,
   (C8_below_threshold_aborts ⟨10⟩
      ⟨["d1.jpg", "d2.jpg", "d3.jpg", "d4.jpg", "d5.jpg", "d6.jpg",
        "d7.jpg", "d8.jpg", "d9.jpg"], []⟩ .success "v.mp4" (by decide)).2⟩

/-- C6: whenever a local artifact file was created (the render succeeded on
a full batch), the file is gone from local storage after the coordinator
returns — the `finally` in `generate_and_upload_video` removes it whether
the upload returned a URL, returned nothing, or raised. -/
theorem C6_artifact_removed (svc : MediaService) (s : MediaState) (v : String)
    (u : UploadOutcome)
    (h : svc.min_images ≤ (MediaService.get_images s).length) :
    v ∉ (MediaService.generate_and_upload_video svc s .success v u).1.videos := by
  have h1 : MediaService.generate_video_sync svc s .success v
      = (MediaService.cleanup_images { s with videos := s.videos ++ [v] }
          (MediaService.get_images s), .ok (some v)) := by
    unfold MediaService.generate_video_sync
    simp [Nat.not_lt.mpr h]
  unfold MediaService.generate_and_upload_video
  rw [h1]
  cases u <;>
    simp [MediaService.cleanup_videos, MediaService.cleanup_images,
      List.mem_filter]

/-- Witness for C6: a successful render over one image with a raising
upload still leaves no artifact file behind. -/
theorem C6_artifact_removed_witness :
    1 ≤ (MediaService.get_images ⟨["e1.jpg"], ["old.mp4"]⟩).length
    ∧ "vid.mp4" ∉ (MediaService.generate_and_upload_video ⟨1⟩
        ⟨["e1.jpg"], ["old.mp4"]⟩ .success "vid.mp4" .raises).1.videos :=
  ⟨by decide,
   C6_artifact_removed ⟨1⟩ ⟨["e1.jpg"], ["old.mp4"]⟩ "vid.mp4" .raises
     (by decide)⟩

/-- C5 (amended): the batch handed to the builder is the eligible files
sorted lexicographically by file name (`files.sort()` on
`"{epoch-seconds}_{uuid-hex}.jpg"` names), a permutation of the stored
batch; it equals arrival order exactly when the arrival-ordered names are
already lexicographically sorted — two assets saved within the same second
carry the same seconds prefix and sort by random uuid, not arrival. -/
theorem C5_batch_sorted_by_name (s : MediaState)
    (hext : ∀ f ∈ s.images, isImageFile f = true) :
    List.Sorted nameLe (MediaService.get_images s)
    ∧ (MediaService.get_images s).Perm s.images
    ∧ (List.Sorted nameLe s.images → MediaService.get_images s = s.images) := by
  have hfil : s.images.filter (fun f => isImageFile f) = s.images :=
    List.filter_eq_self.mpr hext
  refine ⟨?_, ?_, ?_⟩
  · exact List.sorted_insertionSort nameLe _
  · unfold MediaService.get_images
    rw [hfil]
    exact List.perm_insertionSort nameLe s.images
  · intro hs
    unfold MediaService.get_images
    rw [hfil]
    exact hs.insertionSort_eq

/-- Counterexample to C5 as stated: two assets written within the same
second (same `int(time.time())` prefix, uuid hexes in reverse alphabetical
order of arrival) are reordered by the sort — the batch does not equal
arrival order. -/
theorem C5_counterexample :
    MediaService.get_images ⟨["1700000000_bb.jpg", "1700000000_aa.jpg"], []⟩
      = ["1700000000_aa.jpg", "1700000000_bb.jpg"]
    ∧ MediaService.get_images ⟨["1700000000_bb.jpg", "1700000000_aa.jpg"], []⟩
      ≠ ["1700000000_bb.jpg", "1700000000_aa.jpg"] := by decide

/-- Witness for C5 (amended) on a two-asset store whose names are already
sorted. -/
theorem C5_batch_sorted_by_name_witness :
    (∀ f ∈ (⟨["1_a.jpg", "2_b.jpg"], []⟩ : MediaState).images,
        isImageFile f = true)
    ∧ List.Sorted nameLe (MediaService.get_images ⟨["1_a.jpg", "2_b.jpg"], []⟩)
    ∧ (MediaService.get_images ⟨["1_a.jpg", "2_b.jpg"], []⟩).Perm
        ["1_a.jpg", "2_b.jpg"] :=
  ⟨by decide,
   (C5_batch_sorted_by_name ⟨["1_a.jpg", "2_b.jpg"], []⟩ (by decide)).1,
   (C5_batch_sorted_by_name ⟨["1_a.jpg", "2_b.jpg"], []⟩ (by decide)).2.1⟩

/-- C4 (amended): the validation routine the pipeline actually uses
(`MediaService._validate_image`, called by `save_image`) rejects exactly
when the base64 decode raises, the decoded payload exceeds
`MAX_IMAGE_SIZE`, PIL cannot parse the data, or a dimension exceeds 5000;
the format whitelist exists only in the unused `ImageValidator.validate`,
so a PIL-parseable image in an unsupported format is accepted. -/
theorem C4_validate_rejects_iff (env : PILEnv) (t : String) :
    MediaService.validate_image env t = none ↔
      env.b64decode t = none
      ∨ ∃ b, env.b64decode t = some b
          ∧ (MAX_IMAGE_SIZE < b.length
             ∨ env.imOpen b = none
             ∨ ∃ i, env.imOpen b = some i
                 ∧ (5000 < i.width ∨ 5000 < i.height)) := by
  unfold MediaService.validate_image
  cases hd : env.b64decode t with
  | none => simp
  | some b =>
    by_cases hs : MAX_IMAGE_SIZE < b.length
    · simp [hs]
    · simp only [if_neg hs]
      cases ho : env.imOpen b with
      | none => simp [hs, ho]
      | some i =>
        by_cases hw : 5000 < i.width
        · simp [hs, ho, hw]
        · by_cases hh : 5000 < i.height
          · simp [hs, ho, hw, hh]
          · simp [hs, ho, hw, hh]

/-- Counterexample to C4 as stated: an image PIL reports as `GIF` — a
format outside the supported set `['JPEG', 'PNG', 'JPG']` — passes the
pipeline's validator and is saved to the store. -/
theorem C4_counterexample :
    MediaService.validate_image
        ⟨fun _ => some [71, 73, 70], fun _ => some ⟨"GIF", 100, 100⟩⟩ "R0lG"
      = some [71, 73, 70]
    ∧ (["JPEG", "PNG", "JPG"].contains "GIF") = false
    ∧ (MediaService.save_image
        ⟨fun _ => some [71, 73, 70], fun _ => some ⟨"GIF", 100, 100⟩⟩
        ⟨[], []⟩ "R0lG" "1_x.jpg").2 = true := by decide

/-- Witness for C4 (amended): a failing decode is rejected. -/
theorem C4_validate_rejects_iff_witness :
    MediaService.validate_image ⟨fun _ => none, fun _ => none⟩ "AA" = none :=
  (C4_validate_rejects_iff ⟨fun _ => none, fun _ => none⟩ "AA").mpr
    (Or.inl rfl)

/-- C3: at a trigger state holding exactly `min_images` assets, the
threshold check fires, the snapshot batch drawn under the lock has exactly
`min_images` entries and is a permutation of precisely the assets present
at trigger time; an asset not yet in the store at snapshot time (the
(M+1)-th arrival) is never in the batch, and a successful run consumes
exactly that batch, emptying the store and returning the artifact path. -/
theorem C3_snapshot_exact_batch (svc : MediaService) (s : MediaState)
    (hM : s.images.length = svc.min_images)
    (hext : ∀ f ∈ s.images, isImageFile f = true) :
    MediaService.should_generate_video svc s = true
    ∧ (MediaService.get_images s).length = svc.min_images
    ∧ (MediaService.get_images s).Perm s.images
    ∧ (∀ x, x ∉ s.images → x ∉ MediaService.get_images s)
    ∧ (∀ v, (MediaService.generate_video_sync svc s .success v).1.images = [])
    ∧ (∀ v, (MediaService.generate_video_sync svc s .success v).2
        = .ok (some v)) := by
  have hfil : s.images.filter (fun f => isImageFile f) = s.images :=
    List.filter_eq_self.mpr hext
  have hperm : (MediaService.get_images s).Perm s.images := by
    unfold MediaService.get_images
    rw [hfil]
    exact List.perm_insertionSort nameLe s.images
  have hlen : (MediaService.get_images s).length = svc.min_images := by
    rw [hperm.length_eq, hM]
  have hnotlt : ¬ (MediaService.get_images s).length < svc.min_images := by
    omega
  refine ⟨?_, hlen, hperm, ?_, ?_, ?_⟩
  · simp only [MediaService.should_generate_video, decide_eq_true_eq]
    omega
  · intro x hx hmem
    exact hx (hperm.mem_iff.mp hmem)
  · intro v
    unfold MediaService.generate_video_sync
    simp only [if_neg hnotlt, MediaService.cleanup_images]
    rw [List.filter_eq_nil_iff]
    intro a ha
    have hmem : a ∈ MediaService.get_images s := hperm.mem_iff.mpr ha
    simpa using hmem
  · intro v
    unfold MediaService.generate_video_sync
    simp [hnotlt]

/-- Witness for C3 at a two-asset trigger state with `min_images = 2`. -/
theorem C3_snapshot_exact_batch_witness :
    (⟨["1_a.jpg", "2_b.jpg"], []⟩ : MediaState).images.length
      = (⟨2⟩ : MediaService).min_images
    ∧ MediaService.should_generate_video ⟨2⟩ ⟨["1_a.jpg", "2_b.jpg"], []⟩
      = true
    ∧ (MediaService.generate_video_sync ⟨2⟩ ⟨["1_a.jpg", "2_b.jpg"], []⟩
        .success "v.mp4").1.images = []
    ∧ "3_c.jpg" ∉ MediaService.get_images ⟨["1_a.jpg", "2_b.jpg"], []⟩ :=
  ⟨by decide,
   (C3_snapshot_exact_batch ⟨2⟩ ⟨["1_a.jpg", "2_b.jpg"], []⟩ (by decide)
      (by decide)).1,
   (C3_snapshot_exact_batch ⟨2⟩ ⟨["1_a.jpg", "2_b.jpg"], []⟩ (by decide)
      (by decide)).2.2.2.2.1 "v.mp4",
   (C3_snapshot_exact_batch ⟨2⟩ ⟨["1_a.jpg", "2_b.jpg"], []⟩ (by decide)
      (by decide)).2.2.2.1 "3_c.jpg" (by decide)⟩

/-- C9: the shutdown sequence runs at most once — any number `n ≥ 1` of
calls to `stop` equals a single call; a call that observes the `stopped`
latch returns without changing any state; the first call sets the latch and
performs every teardown step. -/
theorem C9_stop_runs_once (st : VideoMakerState) (n : Nat) (h : 1 ≤ n) :
    VideoMaker.stop^[n] st = VideoMaker.stop st
    ∧ (st.stopped = true → VideoMaker.stop st = st)
    ∧ (VideoMaker.stop st).stopped = true
    ∧ (st.stopped = false →
        VideoMaker.stop st
          = { stopped := true, shutdown_event := true,
              subscriber_stopped := true, executor_shutdown := true,
              redis_closed := true }) := by
  have hstop : ∀ u : VideoMakerState, (VideoMaker.stop u).stopped = true := by
    intro u
    unfold VideoMaker.stop
    by_cases hu : u.stopped = true
    · simp [hu]
    · simp [hu]
  have hlatch : ∀ u : VideoMakerState, u.stopped = true →
      VideoMaker.stop u = u := by
    intro u hu
    unfold VideoMaker.stop
    simp [hu]
  have hiter : ∀ m : Nat, VideoMaker.stop^[m + 1] st = VideoMaker.stop st := by
    intro m
    induction m with
    | zero => rfl
    | succ k ih =>
      rw [Function.iterate_succ_apply', ih]
      exact hlatch _ (hstop st)
  refine ⟨?_, hlatch st, hstop st, ?_⟩
  · obtain ⟨m, rfl⟩ : ∃ m, n = m + 1 := ⟨n - 1, by omega⟩
    exact hiter m
  · intro hfalse
    unfold VideoMaker.stop
    simp [hfalse]

/-- Witness for C9: two stop calls from the running state equal one, and
the latch is set afterwards. -/
theorem C9_stop_runs_once_witness :
    1 ≤ 2
    ∧ VideoMaker.stop^[2] ⟨false, false, false, false, false⟩
      = VideoMaker.stop ⟨false, false, false, false, false⟩
    ∧ (VideoMaker.stop ⟨false, false, false, false, false⟩).stopped = true :=
  ⟨by decide,
   (C9_stop_runs_once ⟨false, false, false, false, false⟩ 2 (by decide)).1,
   (C9_stop_runs_once ⟨false, false, false, false, false⟩ 2 (by decide)).2.2.1⟩

/-- C10 (implicit): a `job_vacancy` event whose image fails validation
(`save_image` returns `False`) is not dropped — the handler proceeds to the
threshold check, so when the store already holds at least `min_images`
assets, that invalid event itself triggers a generation run and, on
success, the outbound `video_ready` event carries the invalid event's
timestamp. -/
theorem C10_invalid_image_still_triggers (svc : MediaService) (pil : PILEnv)
    (s : MediaState) (p : Payload) (env : EventEnv) (url t : String)
    (htype : p.type = some "job_vacancy")
    (hex : p.extracted_data = some ⟨true⟩)
    (himg : p.image = some t) (hne : t ≠ "")
    (hval : MediaService.validate_image pil (stripCommaHeader t) = none)
    (hcount : svc.min_images ≤ (MediaService.get_images s).length)
    (hbuild : env.build = .success) (hup : env.upload = .ok url) :
    (VideoMaker.handle_payload svc pil s p env).2
      = [{ type := "video_ready", source := "video_worker",
           timestamp := p.timestamp,
           video := { path := url, format := "mp4" } }] := by
  have hsave : MediaService.save_image pil s t env.filename = (s, false) := by
    unfold MediaService.save_image
    dsimp only
    rw [hval]
  have hgen : MediaService.generate_video_sync svc s .success env.videoName
      = (MediaService.cleanup_images
          { s with videos := s.videos ++ [env.videoName] }
          (MediaService.get_images s), .ok (some env.videoName)) := by
    unfold MediaService.generate_video_sync
    simp [Nat.not_lt.mpr hcount]
  have hgup : MediaService.generate_and_upload_video svc s .success
      env.videoName (.ok url)
      = (MediaService.cleanup_videos
          (MediaService.cleanup_images
            { s with videos := s.videos ++ [env.videoName] }
            (MediaService.get_images s)) env.videoName, .ok (some url)) := by
    unfold MediaService.generate_and_upload_video
    rw [hgen]
  have hshould : MediaService.should_generate_video svc s = true := by
    simp only [MediaService.should_generate_video, decide_eq_true_eq]
    exact hcount
  unfold VideoMaker.handle_payload VideoMaker.handle_payload_body
  rw [htype, hex, himg, hbuild, hup]
  simp only [beq_self_eq_true, hne, hsave, hshould, hgup, if_false]
  simp

/-- Witness for C10: a store already at the threshold plus a payload whose
image decode fails still yields one `video_ready` event echoing that
payload's timestamp. -/
theorem C10_invalid_image_still_triggers_witness :
    MediaService.validate_image ⟨fun _ => none, fun _ => none⟩
        (stripCommaHeader "bad") = none
    ∧ (VideoMaker.handle_payload ⟨1⟩ ⟨fun _ => none, fun _ => none⟩
        ⟨["1_a.jpg"], []⟩
        ⟨some "job_vacancy", some "123", some ⟨true⟩, some "bad"⟩
        ⟨"f.jpg", .success, "v.mp4", .ok "u"⟩).2
      = [{ type := "video_ready", source := "video_worker",
           timestamp := some "123",
           video := { path := "u", format := "mp4" } }] :=
  ⟨rfl,
   C10_invalid_image_still_triggers ⟨1⟩ ⟨fun _ => none, fun _ => none⟩
     ⟨["1_a.jpg"], []⟩
     ⟨some "job_vacancy", some "123", some ⟨true⟩, some "bad"⟩
     ⟨"f.jpg", .success, "v.mp4", .ok "u"⟩ "u" "bad"
     rfl rfl rfl (by decide) rfl (by decide) rfl rfl⟩

/-- C7: no exception raised anywhere in the handler chain propagates out of
the per-event handler — when the `try` body of `_handle_payload` raises,
the handler still returns normally (with no event published), and the
consume loop proceeds to the remaining messages unconditionally. -/
theorem C7_handler_boundary (svc : MediaService) (pil : PILEnv)
    (s : MediaState) (p : Payload) (env : EventEnv) (e : PyExc)
    (h : (VideoMaker.handle_payload_body svc pil s p env).2 = .error e) :
    VideoMaker.handle_payload svc pil s p env
      = ((VideoMaker.handle_payload_body svc pil s p env).1, [])
    ∧ ∀ rest, RedisSubscriber.consume_loop svc pil s ((some p, env) :: rest)
        = ((RedisSubscriber.consume_loop svc pil
             (VideoMaker.handle_payload svc pil s p env).1 rest).1,
           (VideoMaker.handle_payload svc pil s p env).2
             ++ (RedisSubscriber.consume_loop svc pil
                  (VideoMaker.handle_payload svc pil s p env).1 rest).2) := by
  constructor
  · unfold VideoMaker.handle_payload
    rcases heq : VideoMaker.handle_payload_body svc pil s p env with ⟨s1, r⟩
    rw [heq] at h
    cases r with
    | error e2 => rfl
    | ok evs => exact absurd h (by simp)
  · intro rest
    rfl

/-- Witness for C7: a raising render inside an accepted payload is absorbed
at the handler boundary; the handler returns normally with no event. -/
theorem C7_handler_boundary_witness :
    (VideoMaker.handle_payload_body ⟨0⟩ ⟨fun _ => none, fun _ => none⟩
        ⟨[], []⟩ ⟨some "job_vacancy", some "1", some ⟨true⟩, some "x"⟩
        ⟨"f.jpg", .raises, "v.mp4", .ok "u"⟩).2 = .error .exc
    ∧ VideoMaker.handle_payload ⟨0⟩ ⟨fun _ => none, fun _ => none⟩
        ⟨[], []⟩ ⟨some "job_vacancy", some "1", some ⟨true⟩, some "x"⟩
        ⟨"f.jpg", .raises, "v.mp4", .ok "u"⟩
      = ((VideoMaker.handle_payload_body ⟨0⟩ ⟨fun _ => none, fun _ => none⟩
          ⟨[], []⟩ ⟨some "job_vacancy", some "1", some ⟨true⟩, some "x"⟩
          ⟨"f.jpg", .raises, "v.mp4", .ok "u"⟩).1, []) :=
  ⟨rfl,
   (C7_handler_boundary ⟨0⟩ ⟨fun _ => none, fun _ => none⟩ ⟨[], []⟩
      ⟨some "job_vacancy", some "1", some ⟨true⟩, some "x"⟩
      ⟨"f.jpg", .raises, "v.mp4", .ok "u"⟩ .exc rfl).1⟩
